import Mathlib

/-!
Verification of `Marlin/createTemperatureLookup.py` (thermistor lookup-table
generator).

The Python program is embedded shallowly:

* floats are idealised as real numbers (`ℝ`);
* Python exceptions (`ZeroDivisionError` from `x / 0.0`, `ValueError` from
  `math.log` on a non-positive argument, `ValueError` from `range` with a
  zero step) are made explicit through `Except PyError`;
* Python 2 integer division (`/` on ints, which rounds toward minus
  infinity) is `Int.fdiv`, `range(start, stop, step)` is `pyRange`,
  `int()` on a float truncates toward zero (`intTrunc`), and Python 2
  `round` rounds half away from zero (`pyRound`).
-/

namespace Marlin

/-- The runtime failures the Python code can raise: division by zero,
`math.log` domain errors, and `range` refusing a zero step. -/
inductive PyError where
  | zeroDivisionError
  | mathDomainError
  | rangeStepError
deriving DecidableEq

/-- State of a constructed `Thermistor` object (source lines 34-47):
`r0`, `t0` (stored in Kelvin), `beta`, the fixed references
`vadc = vcc = 5.0`, and the derived constants `k`, `vs`, `rs`. -/
structure Thermistor where
  r0 : ℝ
  t0 : ℝ
  beta : ℝ
  vadc : ℝ
  vcc : ℝ
  k : ℝ
  vs : ℝ
  rs : ℝ

/-- `Thermistor.__init__(r0, t0, beta, r1, r2)` (source lines 36-47).
The source performs no parameter validation; the only possible failures
are Python `ZeroDivisionError`s: `-beta / self.t0` when `t0 + 273.15 = 0`,
and the divider expressions when `r1 > 0` and `r1 + r2 = 0`.
`r1` is optional (`None` on the CLI); in Python 2 `None > 0` is `False`,
which `Option.getD 0` reproduces. -/
noncomputable def Thermistor.init (r0 t0c beta : ℝ) (r1 : Option ℝ) (r2 : ℝ) :
    Except PyError Thermistor :=
  let t0 := t0c + 273.15
  if t0 = 0 then .error .zeroDivisionError
  else
    let k := r0 * Real.exp (-beta / t0)
    let r1v := r1.getD 0
    if 0 < r1v then
      if r1v + r2 = 0 then .error .zeroDivisionError
      else .ok ⟨r0, t0, beta, 5, 5, k, r1v * 5 / (r1v + r2), r1v * r2 / (r1v + r2)⟩
    else .ok ⟨r0, t0, beta, 5, 5, k, 5, r2⟩

/-- `Thermistor.temp(adc)` (source lines 49-53):
`v = adc * vadc / 1024`, `r = rs * v / (vs - v)`,
result `beta / log(r / k) - 273.15`.  Failure points, in evaluation
order exactly as Python hits them: `vs - v = 0` (division by zero in `r`),
`k = 0` (division by zero in `r / k`), `r / k <= 0` (`math.log` domain
error), `log(r / k) = 0` (division by zero in the final quotient). -/
noncomputable def Thermistor.temp (th : Thermistor) (adc : ℤ) : Except PyError ℝ :=
  let v : ℝ := (adc : ℝ) * th.vadc / 1024
  if th.vs - v = 0 then .error .zeroDivisionError
  else
    let r := th.rs * v / (th.vs - v)
    if th.k = 0 then .error .zeroDivisionError
    else if r / th.k ≤ 0 then .error .mathDomainError
    else if Real.log (r / th.k) = 0 then .error .zeroDivisionError
    else .ok (th.beta / Real.log (r / th.k) - 273.15)

/-- Python 2 `round`: nearest integer, halves away from zero. -/
noncomputable def pyRound (x : ℝ) : ℤ :=
  if 0 ≤ x then ⌊x + 1 / 2⌋ else ⌈x - 1 / 2⌉

/-- Python `int()` on a float: truncation toward zero. -/
noncomputable def intTrunc (x : ℝ) : ℤ :=
  if 0 ≤ x then ⌊x⌋ else ⌈x⌉

/-- `Thermistor.setting(t)` (source lines 55-59):
`r = r0 * exp(beta * (1/(t + 273.15) - 1/t0))`, `v = vs * r / (rs + r)`,
result `round(v / vadc * 1024)`.  Failure points in Python's evaluation
order: `t + 273.15 = 0`, `t0 = 0`, `rs + r = 0`, `vadc = 0` (each a
`ZeroDivisionError`). -/
noncomputable def Thermistor.setting (th : Thermistor) (t : ℝ) : Except PyError ℤ :=
  if t + 273.15 = 0 then .error .zeroDivisionError
  else if th.t0 = 0 then .error .zeroDivisionError
  else
    let r := th.r0 * Real.exp (th.beta * (1 / (t + 273.15) - 1 / th.t0))
    if th.rs + r = 0 then .error .zeroDivisionError
    else if th.vadc = 0 then .error .zeroDivisionError
    else .ok (pyRound (th.vs * r / (th.rs + r) / th.vadc * 1024))

/-- Python 2 `range(start, stop, step)` for a non-zero step.  (The `step = 0`
case is unreachable here: `generate` checks the step first, mirroring the
`ValueError` that `range` raises.) -/
def pyRange (start stop step : ℤ) : List ℤ :=
  if step = 0 then []
  else
    let count : ℤ :=
      if 0 < step then (stop - start + step - 1).fdiv step
      else (start - stop - step - 1).fdiv (-step)
    (List.range count.toNat).map fun i => start + step * (i : ℤ)

/-- `increment = int(max_adc/(args.num_temps-1))` (source line 91).
Python 2 division of ints rounds toward minus infinity (`Int.fdiv`). -/
def increment (maxAdc numTemps : ℤ) : ℤ :=
  maxAdc.fdiv (numTemps - 1)

/-- `adcs = range(1, max_adc, increment)` (source line 92). -/
def adcs (maxAdc numTemps : ℤ) : List ℤ :=
  pyRange 1 maxAdc (increment maxAdc numTemps)

/-- The emission loop (source lines 101-102): each row pairs the raw ADC
code with `int(t.temp(adc))`; the first exception aborts generation. -/
noncomputable def tableRows (th : Thermistor) : List ℤ → Except PyError (List (ℤ × ℤ))
  | [] => .ok []
  | adc :: rest =>
    match th.temp adc with
    | .error e => .error e
    | .ok t =>
      match tableRows th rest with
      | .error e => .error e
      | .ok tbl => .ok ((adc, intTrunc t) :: tbl)

/-- `TableSampler.generate`: the sampling part of `main` (source lines
91-102).  `num_temps = 1` raises `ZeroDivisionError` computing the
increment; a zero increment raises `ValueError` from `range`; otherwise the
rows are produced in order. -/
noncomputable def generate (th : Thermistor) (maxAdc numTemps : ℤ) :
    Except PyError (List (ℤ × ℤ)) :=
  if numTemps - 1 = 0 then .error .zeroDivisionError
  else if increment maxAdc numTemps = 0 then .error .rangeStepError
  else tableRows th (adcs maxAdc numTemps)

/-- The model of the spec's concrete scenario:
`r0=100000, t0=25, beta=4092, r1 absent, r2=4700`. -/
noncomputable def thM : Thermistor :=
  ⟨100000, 298.15, 4092, 5, 5, 100000 * Real.exp (-4092 / 298.15), 5, 4700⟩

/-- The model produced by construction with `r0 = 0` (and
`t0=25, beta=4092, r1 absent, r2=4700`): its `k` is `0`. -/
noncomputable def thZero : Thermistor :=
  ⟨0, 298.15, 4092, 5, 5, 0, 5, 4700⟩

/-- Model from `r0=4700, t0=0.9, beta=274.05, r1 absent, r2=4700`:
at ADC code 512 its resistance/k ratio is exactly `e`, so
`temp 512 = 274.05 / 1 - 273.15 = 0.9`, which `int()` truncates to `0`
while nearest rounding would give `1`. -/
noncomputable def thC2 : Thermistor :=
  ⟨4700, 274.05, 274.05, 5, 5, 4700 * Real.exp (-1), 5, 4700⟩

/-- Model from `r0=1, t0=1-273.15, beta=1, r1 absent, r2=exp(-1)`:
its `k` equals `rs = exp(-1)`, so at ADC code 512 the thermistor
resistance equals `k` and `log(r/k) = 0`. -/
noncomputable def thUnit : Thermistor :=
  ⟨1, 1, 1, 5, 5, Real.exp (-1), 5, Real.exp (-1)⟩

/-- Model from `r0=3e, t0=10000-273.15, beta=10000, r1 absent, r2=4090`:
its temperature scale is so steep that rounding to the nearest ADC code
moves the temperature by thousands of degrees. -/
noncomputable def thSteep : Thermistor :=
  ⟨3 * Real.exp 1, 10000, 10000, 5, 5, 3, 5, 4090⟩

/-! ### Rounding helpers -/

lemma pyRound_intCast (c : ℤ) : pyRound (c : ℝ) = c := by
  unfold pyRound
  by_cases h : (0 : ℝ) ≤ (c : ℝ)
  · rw [if_pos h, Int.floor_eq_iff]
    constructor
    · linarith
    · linarith
  · rw [if_neg h, Int.ceil_eq_iff]
    constructor
    · linarith
    · linarith

lemma pyRound_three_halves : pyRound (3 / 2 : ℝ) = 2 := by
  unfold pyRound
  rw [if_pos (by norm_num), Int.floor_eq_iff]
  norm_num

lemma pyRound_nine_tenths : pyRound (9 / 10 : ℝ) = 1 := by
  unfold pyRound
  rw [if_pos (by norm_num), Int.floor_eq_iff]
  norm_num

lemma intTrunc_nine_tenths : intTrunc (9 / 10 : ℝ) = 0 := by
  unfold intTrunc
  rw [if_pos (by norm_num), Int.floor_eq_iff]
  norm_num

/-! ### Construction helpers -/

lemma init_none_eq (r0 t0c beta r2 : ℝ) (h : t0c + 273.15 ≠ 0) :
    Thermistor.init r0 t0c beta none r2 =
      .ok ⟨r0, t0c + 273.15, beta, 5, 5,
           r0 * Real.exp (-beta / (t0c + 273.15)), 5, r2⟩ := by
  simp only [Thermistor.init, Option.getD_none]
  rw [if_neg h, if_neg (lt_irrefl (0 : ℝ))]

lemma init_ok_fields {r0 t0c beta : ℝ} {r1 : Option ℝ} {r2 : ℝ} {th : Thermistor}
    (h : Thermistor.init r0 t0c beta r1 r2 = .ok th) :
    th.r0 = r0 ∧ th.t0 = t0c + 273.15 ∧ th.beta = beta ∧ th.vadc = 5 ∧
      th.k = r0 * Real.exp (-beta / (t0c + 273.15)) ∧ t0c + 273.15 ≠ 0 ∧
      th.vs ≠ 0 := by
  simp only [Thermistor.init] at h
  split at h
  · exact absurd h (by simp)
  · rename_i ht0
    split at h
    · rename_i hr1
      split at h
      · exact absurd h (by simp)
      · rename_i hden
        injection h with h'
        subst h'
        refine ⟨rfl, rfl, rfl, rfl, rfl, ht0, ?_⟩
        exact div_ne_zero (by positivity) hden
    · injection h with h'
      subst h'
      exact ⟨rfl, rfl, rfl, rfl, rfl, ht0, by norm_num⟩

lemma init_none_rs {r0 t0c beta r2 : ℝ} {th : Thermistor}
    (h : Thermistor.init r0 t0c beta none r2 = .ok th) :
    th.rs = r2 ∧ th.vs = 5 := by
  simp only [Thermistor.init, Option.getD_none] at h
  rw [if_neg (lt_irrefl (0 : ℝ))] at h
  split at h
  · exact absurd h (by simp)
  · injection h with h'
    subst h'
    exact ⟨rfl, rfl⟩

lemma init_thM : Thermistor.init 100000 25 4092 none 4700 = .ok thM := by
  rw [init_none_eq _ _ _ _ (by norm_num)]
  have h : (25 : ℝ) + 273.15 = 298.15 := by norm_num
  rw [h]
  rfl

lemma init_thZero : Thermistor.init 0 25 4092 none 4700 = .ok thZero := by
  rw [init_none_eq _ _ _ _ (by norm_num)]
  have h : (25 : ℝ) + 273.15 = 298.15 := by norm_num
  rw [h, zero_mul]
  rfl

lemma init_thC2 : Thermistor.init 4700 0.9 274.05 none 4700 = .ok thC2 := by
  rw [init_none_eq _ _ _ _ (by norm_num)]
  have h : (0.9 : ℝ) + 273.15 = 274.05 := by norm_num
  have h2 : (-274.05 / 274.05 : ℝ) = -1 := by norm_num
  rw [h, h2]
  rfl

lemma init_thUnit :
    Thermistor.init 1 (1 - 273.15) 1 none (Real.exp (-1)) = .ok thUnit := by
  rw [init_none_eq _ _ _ _ (by norm_num)]
  have h : (1 : ℝ) - 273.15 + 273.15 = 1 := by norm_num
  have h2 : (-1 / 1 : ℝ) = -1 := by norm_num
  rw [h, h2, one_mul]
  rfl

lemma init_thSteep :
    Thermistor.init (3 * Real.exp 1) (10000 - 273.15) 10000 none 4090 = .ok thSteep := by
  rw [init_none_eq _ _ _ _ (by norm_num)]
  have h : (10000 : ℝ) - 273.15 + 273.15 = 10000 := by norm_num
  have h2 : (-10000 / 10000 : ℝ) = -1 := by norm_num
  have h3 : 3 * Real.exp 1 * Real.exp (-1) = 3 := by
    rw [mul_assoc, ← Real.exp_add]
    norm_num
  rw [h, h2, h3]
  rfl

/-! ### Evaluation helpers for `temp` -/

lemma temp_eq_ok (th : Thermistor) (adc : ℤ) (v r : ℝ)
    (hv : (adc : ℝ) * th.vadc / 1024 = v)
    (hvs : th.vs - v ≠ 0)
    (hr : th.rs * v / (th.vs - v) = r)
    (hk : th.k ≠ 0)
    (hpos : 0 < r / th.k)
    (hlog : Real.log (r / th.k) ≠ 0) :
    th.temp adc = .ok (th.beta / Real.log (r / th.k) - 273.15) := by
  simp only [Thermistor.temp]
  rw [hv, hr, if_neg hvs, if_neg hk, if_neg (not_le.mpr hpos), if_neg hlog]

lemma temp_eq_err_logzero (th : Thermistor) (adc : ℤ) (v r : ℝ)
    (hv : (adc : ℝ) * th.vadc / 1024 = v)
    (hvs : th.vs - v ≠ 0)
    (hr : th.rs * v / (th.vs - v) = r)
    (hk : th.k ≠ 0)
    (hpos : 0 < r / th.k)
    (hlog : Real.log (r / th.k) = 0) :
    th.temp adc = .error .zeroDivisionError := by
  simp only [Thermistor.temp]
  rw [hv, hr, if_neg hvs, if_neg hk, if_neg (not_le.mpr hpos), if_pos hlog]

lemma temp_eq_err_nonpos (th : Thermistor) (adc : ℤ) (v r : ℝ)
    (hv : (adc : ℝ) * th.vadc / 1024 = v)
    (hvs : th.vs - v ≠ 0)
    (hr : th.rs * v / (th.vs - v) = r)
    (hk : th.k ≠ 0)
    (hnp : r / th.k ≤ 0) :
    th.temp adc = .error .mathDomainError := by
  simp only [Thermistor.temp]
  rw [hv, hr, if_neg hvs, if_neg hk, if_pos hnp]

lemma temp_eq_err_sat (th : Thermistor) (adc : ℤ) (v : ℝ)
    (hv : (adc : ℝ) * th.vadc / 1024 = v)
    (hvs : th.vs - v = 0) :
    th.temp adc = .error .zeroDivisionError := by
  simp only [Thermistor.temp]
  rw [hv, if_pos hvs]

lemma temp_ok_inv {th : Thermistor} {adc : ℤ} {t : ℝ} (h : th.temp adc = .ok t) :
    th.vs - (adc : ℝ) * th.vadc / 1024 ≠ 0 ∧ th.k ≠ 0 ∧
      0 < th.rs * ((adc : ℝ) * th.vadc / 1024) /
          (th.vs - (adc : ℝ) * th.vadc / 1024) / th.k ∧
      Real.log (th.rs * ((adc : ℝ) * th.vadc / 1024) /
          (th.vs - (adc : ℝ) * th.vadc / 1024) / th.k) ≠ 0 ∧
      t = th.beta / Real.log (th.rs * ((adc : ℝ) * th.vadc / 1024) /
          (th.vs - (adc : ℝ) * th.vadc / 1024) / th.k) - 273.15 := by
  simp only [Thermistor.temp] at h
  split at h
  · exact absurd h (by simp)
  · rename_i h1
    split at h
    · exact absurd h (by simp)
    · rename_i h2
      split at h
      · exact absurd h (by simp)
      · rename_i h3
        split at h
        · exact absurd h (by simp)
        · rename_i h4
          injection h with h5
          exact ⟨h1, h2, not_le.mp h3, h4, h5.symm⟩

lemma temp_zero_not_ok (th : Thermistor) (t : ℝ) : th.temp 0 ≠ .ok t := by
  simp only [Thermistor.temp, Int.cast_zero, zero_mul, zero_div, mul_zero, sub_zero,
    le_refl, if_true]
  split
  · simp
  · split
    · simp
    · simp

lemma temp_zero_eq {th : Thermistor} (hvs : th.vs ≠ 0) (hk : th.k ≠ 0) :
    th.temp 0 = .error .mathDomainError := by
  simp only [Thermistor.temp, Int.cast_zero, zero_mul, zero_div, mul_zero, sub_zero]
  rw [if_neg hvs, if_neg hk, if_pos le_rfl]

/-! ### Evaluation helpers for `setting` -/

lemma setting_eq_ok (th : Thermistor) (t r : ℝ)
    (ht : t + 273.15 ≠ 0) (ht0 : th.t0 ≠ 0)
    (hr : th.r0 * Real.exp (th.beta * (1 / (t + 273.15) - 1 / th.t0)) = r)
    (hrs : th.rs + r ≠ 0) (hvadc : th.vadc ≠ 0) :
    th.setting t = .ok (pyRound (th.vs * r / (th.rs + r) / th.vadc * 1024)) := by
  simp only [Thermistor.setting]
  rw [hr, if_neg ht, if_neg ht0, if_neg hrs, if_neg hvadc]

lemma setting_absZero (th : Thermistor) :
    th.setting (-273.15) = .error .zeroDivisionError := by
  simp only [Thermistor.setting]
  rw [if_pos (by norm_num)]

/-! ### Table-generation helpers -/

lemma tableRows_cons_ok {th : Thermistor} {adc : ℤ} {t : ℝ} {l : List ℤ}
    {tbl : List (ℤ × ℤ)}
    (h1 : th.temp adc = .ok t) (h2 : tableRows th l = .ok tbl) :
    tableRows th (adc :: l) = .ok ((adc, intTrunc t) :: tbl) := by
  simp only [tableRows, h1, h2]

lemma tableRows_ok_mem {th : Thermistor} :
    ∀ {l : List ℤ} {tbl : List (ℤ × ℤ)}, tableRows th l = .ok tbl →
      ∀ p ∈ tbl, ∃ t, th.temp p.1 = .ok t ∧ p.2 = intTrunc t ∧ p.1 ∈ l := by
  intro l
  induction l with
  | nil =>
    intro tbl h p hp
    simp only [tableRows] at h
    injection h with h'
    subst h'
    exact absurd hp (List.not_mem_nil p)
  | cons adc rest ih =>
    intro tbl h p hp
    rcases hA : th.temp adc with e | t
    · rw [tableRows, hA] at h
      exact absurd h (by simp)
    · rcases hB : tableRows th rest with e | tbl'
      · rw [tableRows, hA, hB] at h
        exact absurd h (by simp)
      · rw [tableRows, hA, hB] at h
        injection h with h'
        subst h'
        rcases List.mem_cons.mp hp with hp1 | hp2
        · subst hp1
          exact ⟨t, hA, rfl, List.mem_cons_self _ _⟩
        · obtain ⟨t', h1, h2, h3⟩ := ih hB p hp2
          exact ⟨t', h1, h2, List.mem_cons_of_mem _ h3⟩

lemma tableRows_ok_fst {th : Thermistor} :
    ∀ {l : List ℤ} {tbl : List (ℤ × ℤ)}, tableRows th l = .ok tbl →
      tbl.map Prod.fst = l := by
  intro l
  induction l with
  | nil =>
    intro tbl h
    simp only [tableRows] at h
    injection h with h'
    subst h'
    rfl
  | cons adc rest ih =>
    intro tbl h
    rcases hA : th.temp adc with e | t
    · rw [tableRows, hA] at h
      exact absurd h (by simp)
    · rcases hB : tableRows th rest with e | tbl'
      · rw [tableRows, hA, hB] at h
        exact absurd h (by simp)
      · rw [tableRows, hA, hB] at h
        injection h with h'
        subst h'
        simp only [List.map_cons, ih hB]

lemma tableRows_ok_of_forall {th : Thermistor} :
    ∀ l : List ℤ, (∀ a ∈ l, ∃ t, th.temp a = .ok t) →
      ∃ tbl, tableRows th l = .ok tbl := by
  intro l
  induction l with
  | nil => exact fun _ => ⟨[], rfl⟩
  | cons adc rest ih =>
    intro h
    obtain ⟨t, ht⟩ := h adc (List.mem_cons_self _ _)
    obtain ⟨tbl, htbl⟩ := ih fun a ha => h a (List.mem_cons_of_mem _ ha)
    exact ⟨(adc, intTrunc t) :: tbl, tableRows_cons_ok ht htbl⟩

lemma generate_eq {th : Thermistor} {maxAdc n : ℤ} (h1 : n - 1 ≠ 0)
    (h2 : increment maxAdc n ≠ 0) :
    generate th maxAdc n = tableRows th (adcs maxAdc n) := by
  simp only [generate]
  rw [if_neg h1, if_neg h2]

lemma generate_ok_inv {th : Thermistor} {maxAdc n : ℤ} {tbl : List (ℤ × ℤ)}
    (h : generate th maxAdc n = .ok tbl) :
    tableRows th (adcs maxAdc n) = .ok tbl := by
  simp only [generate] at h
  split at h
  · exact absurd h (by simp)
  · split at h
    · exact absurd h (by simp)
    · exact h

/-! ### Numeric bounds -/

lemma exp_quot_gt : (25000 : ℝ) < Real.exp (4092 / 298.15) := by
  have h13 : (2.7 : ℝ) ^ (13 : ℕ) < Real.exp 1 ^ (13 : ℕ) :=
    pow_lt_pow_left₀ (lt_trans (by norm_num) Real.exp_one_gt_d9) (by norm_num)
      (by norm_num)
  have hexp : Real.exp 1 ^ (13 : ℕ) = Real.exp 13 := by
    rw [← Real.exp_nat_mul]
    norm_num
  calc (25000 : ℝ) < 2.7 ^ (13 : ℕ) := by norm_num
    _ < Real.exp 13 := hexp ▸ h13
    _ ≤ Real.exp (4092 / 298.15) := Real.exp_le_exp.mpr (by norm_num)

lemma thM_k_pos : 0 < thM.k := by
  show (0 : ℝ) < 100000 * Real.exp (-4092 / 298.15)
  positivity

lemma thM_k_lt_4 : thM.k < 4 := by
  show (100000 : ℝ) * Real.exp (-4092 / 298.15) < 4
  have h1 := exp_quot_gt
  have h2 : (-4092 / 298.15 : ℝ) = -(4092 / 298.15) := by norm_num
  rw [h2, Real.exp_neg, ← div_eq_mul_inv,
    div_lt_iff₀ (lt_trans (by norm_num) h1)]
  linarith

/-! ### Wrappers specialised to structure literals -/

lemma temp_mk_eq_ok (a0 a1 a2 a3 a4 a5 a6 a7 : ℝ) (adc : ℤ) (v r : ℝ)
    (hv : (adc : ℝ) * a3 / 1024 = v) (hvs : a6 - v ≠ 0)
    (hr : a7 * v / (a6 - v) = r) (hk : a5 ≠ 0) (hpos : 0 < r / a5)
    (hlog : Real.log (r / a5) ≠ 0) :
    Thermistor.temp ⟨a0, a1, a2, a3, a4, a5, a6, a7⟩ adc =
      .ok (a2 / Real.log (r / a5) - 273.15) :=
  temp_eq_ok _ adc v r hv hvs hr hk hpos hlog

lemma temp_mk_eq_err_logzero (a0 a1 a2 a3 a4 a5 a6 a7 : ℝ) (adc : ℤ) (v r : ℝ)
    (hv : (adc : ℝ) * a3 / 1024 = v) (hvs : a6 - v ≠ 0)
    (hr : a7 * v / (a6 - v) = r) (hk : a5 ≠ 0) (hpos : 0 < r / a5)
    (hlog : Real.log (r / a5) = 0) :
    Thermistor.temp ⟨a0, a1, a2, a3, a4, a5, a6, a7⟩ adc =
      .error .zeroDivisionError :=
  temp_eq_err_logzero _ adc v r hv hvs hr hk hpos hlog

/-! ### Concrete evaluations on `thM` -/

lemma kM_pos : (0 : ℝ) < 100000 * Real.exp (-4092 / 298.15) := by positivity

lemma kM_lt_4 : (100000 : ℝ) * Real.exp (-4092 / 298.15) < 4 := thM_k_lt_4

lemma thM_temp_512 :
    thM.temp 512 =
      .ok (4092 / Real.log (4700 / (100000 * Real.exp (-4092 / 298.15))) - 273.15) := by
  have h := temp_mk_eq_ok 100000 298.15 4092 5 5 (100000 * Real.exp (-4092 / 298.15))
    5 4700 512 2.5 4700 (by norm_num) (by norm_num) (by norm_num) kM_pos.ne'
    (div_pos (by norm_num) kM_pos)
    (Real.log_pos ((one_lt_div kM_pos).mpr (lt_trans kM_lt_4 (by norm_num)))).ne'
  exact h

lemma thM_temp_ok_of_range (adc : ℤ) (h1 : 1 ≤ adc) (h2 : adc ≤ 1008) :
    ∃ t, thM.temp adc = .ok t := by
  have hc1 : (1 : ℝ) ≤ (adc : ℝ) := by exact_mod_cast h1
  have hc2 : (adc : ℝ) ≤ 1008 := by exact_mod_cast h2
  set v : ℝ := (adc : ℝ) * 5 / 1024 with hvdef
  have hv1 : 5 / 1024 ≤ v := by rw [hvdef]; nlinarith
  have hv5 : v < 5 := by rw [hvdef]; nlinarith
  have hvs : (5 : ℝ) - v ≠ 0 := by linarith
  set r : ℝ := 4700 * v / (5 - v) with hrdef
  have hr4 : 4 < r := by
    rw [hrdef, lt_div_iff₀ (by linarith : (0 : ℝ) < 5 - v)]
    nlinarith
  have hrk : (1 : ℝ) < r / (100000 * Real.exp (-4092 / 298.15)) :=
    (one_lt_div kM_pos).mpr (lt_trans kM_lt_4 hr4)
  refine ⟨4092 / Real.log (r / (100000 * Real.exp (-4092 / 298.15))) - 273.15, ?_⟩
  exact temp_mk_eq_ok 100000 298.15 4092 5 5 (100000 * Real.exp (-4092 / 298.15))
    5 4700 adc v r rfl hvs rfl kM_pos.ne' (lt_trans one_pos hrk)
    (Real.log_pos hrk).ne'

lemma thM_generate_ok :
    ∃ tbl, generate thM 1023 20 = .ok tbl ∧ tbl.map Prod.fst = adcs 1023 20 := by
  have hb : ∀ a ∈ adcs 1023 20, 1 ≤ a ∧ a ≤ 1008 := by decide
  have hall : ∀ a ∈ adcs 1023 20, ∃ t, thM.temp a = .ok t := fun a ha =>
    thM_temp_ok_of_range a (hb a ha).1 (hb a ha).2
  obtain ⟨tbl, htbl⟩ := tableRows_ok_of_forall _ hall
  refine ⟨tbl, ?_, tableRows_ok_fst htbl⟩
  rw [generate_eq (by decide) (by decide)]
  exact htbl

lemma generate_thM_empty : generate thM 1023 0 = .ok [] := by
  rw [generate_eq (by decide) (by decide)]
  have h : adcs 1023 0 = [] := by decide
  rw [h]
  rfl

/-! ### Concrete evaluations on `thC2` -/

lemma thC2_temp_512 : thC2.temp 512 = .ok (9 / 10) := by
  have hratio : (4700 : ℝ) / (4700 * Real.exp (-1)) = Real.exp 1 := by
    rw [Real.exp_neg]
    field_simp
  have h : thC2.temp 512 =
      .ok (274.05 / Real.log (4700 / (4700 * Real.exp (-1))) - 273.15) :=
    temp_mk_eq_ok 4700 274.05 274.05 5 5 (4700 * Real.exp (-1)) 5 4700
      512 2.5 4700 (by norm_num) (by norm_num) (by norm_num) (by positivity)
      (by positivity)
      (by rw [hratio, Real.log_exp]; norm_num)
  rw [h, hratio, Real.log_exp]
  norm_num

lemma log_1023_ne_one : Real.log 1023 ≠ 1 := by
  intro h
  have h2 := Real.exp_log (by norm_num : (0 : ℝ) < 1023)
  rw [h] at h2
  have h3 := Real.exp_one_lt_d9
  linarith

lemma thC2_temp_1 : thC2.temp 1 = .ok (274.05 / (1 - Real.log 1023) - 273.15) := by
  have hratio : (4700 / 1023 : ℝ) / (4700 * Real.exp (-1)) = Real.exp 1 / 1023 := by
    rw [Real.exp_neg]
    field_simp
    ring
  have hlogv : Real.log (Real.exp 1 / 1023) = 1 - Real.log 1023 := by
    rw [Real.log_div (Real.exp_ne_zero 1) (by norm_num), Real.log_exp]
  have h : thC2.temp 1 =
      .ok (274.05 / Real.log (4700 / 1023 / (4700 * Real.exp (-1))) - 273.15) :=
    temp_mk_eq_ok 4700 274.05 274.05 5 5 (4700 * Real.exp (-1)) 5 4700
      1 (5 / 1024) (4700 / 1023) (by norm_num) (by norm_num) (by norm_num)
      (by positivity) (by positivity)
      (by rw [hratio, hlogv]; exact sub_ne_zero_of_ne (Ne.symm log_1023_ne_one))
  rw [h, hratio, hlogv]

lemma generate_thC2 :
    generate thC2 1022 3 =
      .ok [(1, intTrunc (274.05 / (1 - Real.log 1023) - 273.15)), (512, 0)] := by
  rw [generate_eq (by decide) (by decide)]
  have hl : adcs 1022 3 = [1, 512] := by decide
  rw [hl]
  have h2 : tableRows thC2 [512] = .ok [(512, intTrunc (9 / 10))] :=
    tableRows_cons_ok thC2_temp_512 rfl
  have h1 : tableRows thC2 [1, 512] =
      .ok [(1, intTrunc (274.05 / (1 - Real.log 1023) - 273.15)),
           (512, intTrunc (9 / 10))] :=
    tableRows_cons_ok thC2_temp_1 h2
  rw [h1, intTrunc_nine_tenths]

/-! ### Concrete evaluations on `thUnit` -/

lemma thUnit_temp_ratio (adc : ℤ) (h2 : (adc : ℝ) < 1024) :
    Real.exp (-1) * ((adc : ℝ) * 5 / 1024) / (5 - (adc : ℝ) * 5 / 1024) /
        Real.exp (-1) = (adc : ℝ) / (1024 - (adc : ℝ)) := by
  have h5 : (5 : ℝ) - (adc : ℝ) * 5 / 1024 ≠ 0 := by
    have : (0 : ℝ) < 5 - (adc : ℝ) * 5 / 1024 := by nlinarith
    exact this.ne'
  have h6 : (1024 : ℝ) - (adc : ℝ) ≠ 0 := by
    have : (0 : ℝ) < 1024 - (adc : ℝ) := by linarith
    exact this.ne'
  rw [mul_div_assoc, mul_div_cancel_left₀ _ (Real.exp_ne_zero (-1)),
    div_eq_div_iff h5 h6]
  ring

lemma thUnit_temp_eval (adc : ℤ) (h1 : 0 < (adc : ℝ)) (h2 : (adc : ℝ) < 1024)
    (hlog : Real.log ((adc : ℝ) / (1024 - (adc : ℝ))) ≠ 0) :
    thUnit.temp adc = .ok (1 / Real.log ((adc : ℝ) / (1024 - (adc : ℝ))) - 273.15) := by
  have hsub : (0 : ℝ) < 5 - (adc : ℝ) * 5 / 1024 := by nlinarith
  have hratio := thUnit_temp_ratio adc h2
  have hpos : 0 < (adc : ℝ) / (1024 - (adc : ℝ)) := div_pos h1 (by linarith)
  have h : thUnit.temp adc =
      .ok (1 / Real.log (Real.exp (-1) * ((adc : ℝ) * 5 / 1024) /
        (5 - (adc : ℝ) * 5 / 1024) / Real.exp (-1)) - 273.15) :=
    temp_mk_eq_ok 1 1 1 5 5 (Real.exp (-1)) 5 (Real.exp (-1)) adc
      ((adc : ℝ) * 5 / 1024)
      (Real.exp (-1) * ((adc : ℝ) * 5 / 1024) / (5 - (adc : ℝ) * 5 / 1024))
      rfl hsub.ne' rfl (Real.exp_ne_zero _)
      (by rw [hratio]; exact hpos) (by rw [hratio]; exact hlog)
  rw [h, hratio]

lemma thUnit_temp_510 : thUnit.temp 510 = .ok (1 / Real.log (510 / 514) - 273.15) := by
  have hcast : ((510 : ℤ) : ℝ) / (1024 - ((510 : ℤ) : ℝ)) = 510 / 514 := by norm_num
  have hlog : Real.log (((510 : ℤ) : ℝ) / (1024 - ((510 : ℤ) : ℝ))) ≠ 0 := by
    rw [hcast]
    exact (Real.log_neg (by norm_num) (by norm_num)).ne
  have h := thUnit_temp_eval 510 (by norm_num) (by norm_num) hlog
  rw [h, hcast]

lemma thUnit_temp_511 : thUnit.temp 511 = .ok (1 / Real.log (511 / 513) - 273.15) := by
  have hcast : ((511 : ℤ) : ℝ) / (1024 - ((511 : ℤ) : ℝ)) = 511 / 513 := by norm_num
  have hlog : Real.log (((511 : ℤ) : ℝ) / (1024 - ((511 : ℤ) : ℝ))) ≠ 0 := by
    rw [hcast]
    exact (Real.log_neg (by norm_num) (by norm_num)).ne
  have h := thUnit_temp_eval 511 (by norm_num) (by norm_num) hlog
  rw [h, hcast]

lemma thUnit_temp_513 : thUnit.temp 513 = .ok (1 / Real.log (513 / 511) - 273.15) := by
  have hcast : ((513 : ℤ) : ℝ) / (1024 - ((513 : ℤ) : ℝ)) = 513 / 511 := by norm_num
  have hlog : Real.log (((513 : ℤ) : ℝ) / (1024 - ((513 : ℤ) : ℝ))) ≠ 0 := by
    rw [hcast]
    exact (Real.log_pos (by norm_num)).ne'
  have h := thUnit_temp_eval 513 (by norm_num) (by norm_num) hlog
  rw [h, hcast]

lemma thUnit_temp_512 : thUnit.temp 512 = .error .zeroDivisionError := by
  have hratio := thUnit_temp_ratio 512 (by norm_num)
  have hcast : ((512 : ℤ) : ℝ) / (1024 - ((512 : ℤ) : ℝ)) = 1 := by norm_num
  exact temp_mk_eq_err_logzero 1 1 1 5 5 (Real.exp (-1)) 5 (Real.exp (-1)) 512
    (((512 : ℤ) : ℝ) * 5 / 1024)
    (Real.exp (-1) * (((512 : ℤ) : ℝ) * 5 / 1024) / (5 - ((512 : ℤ) : ℝ) * 5 / 1024))
    rfl (by norm_num) rfl (Real.exp_ne_zero _)
    (by rw [hratio, hcast]; norm_num)
    (by rw [hratio, hcast]; exact Real.log_one)

/-! ### Concrete evaluations on `thSteep` -/

lemma thSteep_setting : thSteep.setting (10000 / Real.log 2 - 273.15) = .ok 2 := by
  have hlog2 : (0 : ℝ) < Real.log 2 := Real.log_pos (by norm_num)
  have hT : (10000 / Real.log 2 - 273.15) + 273.15 = 10000 / Real.log 2 := by ring
  have ht : (10000 / Real.log 2 - 273.15) + 273.15 ≠ 0 := by
    rw [hT]
    positivity
  have ht0 : thSteep.t0 ≠ 0 := by
    show (10000 : ℝ) ≠ 0
    norm_num
  have hrval : thSteep.r0 * Real.exp (thSteep.beta *
      (1 / ((10000 / Real.log 2 - 273.15) + 273.15) - 1 / thSteep.t0)) = 6 := by
    show (3 * Real.exp 1) * Real.exp (10000 *
      (1 / ((10000 / Real.log 2 - 273.15) + 273.15) - 1 / 10000)) = 6
    rw [hT, one_div_div]
    have h2 : (10000 : ℝ) * (Real.log 2 / 10000 - 1 / 10000) = Real.log 2 - 1 := by
      ring
    rw [h2, Real.exp_sub, Real.exp_log (by norm_num : (0 : ℝ) < 2)]
    field_simp
    ring
  have h := setting_eq_ok thSteep (10000 / Real.log 2 - 273.15) 6 ht ht0 hrval
    (by show (4090 : ℝ) + 6 ≠ 0; norm_num) (by show (5 : ℝ) ≠ 0; norm_num)
  rw [h]
  have hval : thSteep.vs * 6 / (thSteep.rs + 6) / thSteep.vadc * 1024 = 3 / 2 := by
    show (5 : ℝ) * 6 / (4090 + 6) / 5 * 1024 = 3 / 2
    norm_num
  rw [hval, pyRound_three_halves]

lemma thSteep_temp_2 :
    thSteep.temp 2 = .ok (10000 / Real.log (4090 / 1533) - 273.15) := by
  have hr : ((4090 : ℝ) * (5 / 512) / (5 - 5 / 512)) / 3 = 4090 / 1533 := by
    norm_num
  have h : thSteep.temp 2 =
      .ok (10000 / Real.log ((4090 * (5 / 512) / (5 - 5 / 512)) / 3) - 273.15) :=
    temp_mk_eq_ok (3 * Real.exp 1) 10000 10000 5 5 3 5 4090 2 (5 / 512)
      (4090 * (5 / 512) / (5 - 5 / 512)) (by norm_num) (by norm_num) rfl
      (by norm_num) (by rw [hr]; norm_num)
      (by rw [hr]; exact (Real.log_pos (by norm_num)).ne')
  rw [h, hr]

lemma quarter_lt_log_ratio : (1 / 4 : ℝ) < Real.log (13 / 10) := by
  rw [Real.lt_log_iff_exp_lt (by norm_num : (0 : ℝ) < 13 / 10)]
  have h4 : Real.exp (1 / 4) ^ (4 : ℕ) = Real.exp 1 := by
    rw [← Real.exp_nat_mul]
    norm_num
  by_contra hcon
  push_neg at hcon
  have hle : ((13 : ℝ) / 10) ^ (4 : ℕ) ≤ Real.exp (1 / 4) ^ (4 : ℕ) :=
    pow_le_pow_left₀ (by norm_num) hcon 4
  rw [h4] at hle
  have := Real.exp_one_lt_d9
  norm_num at hle
  linarith

lemma thSteep_deviation :
    10000 / Real.log (4090 / 1533) - 273.15 + 1 < 10000 / Real.log 2 - 273.15 := by
  have hL1a : (0.6931471803 : ℝ) < Real.log 2 := Real.log_two_gt_d9
  have hL1b : Real.log 2 < 0.6931471808 := Real.log_two_lt_d9
  have hL2a : Real.log 2 + 1 / 4 < Real.log (4090 / 1533 : ℝ) := by
    have hsplit : Real.log (13 / 5 : ℝ) = Real.log 2 + Real.log (13 / 10) := by
      rw [← Real.log_mul (by norm_num) (by norm_num)]
      norm_num
    have hmono : Real.log (13 / 5 : ℝ) ≤ Real.log (4090 / 1533 : ℝ) :=
      (Real.log_le_log_iff (by norm_num) (by norm_num)).mpr (by norm_num)
    have := quarter_lt_log_ratio
    linarith
  have hL2b : Real.log (4090 / 1533 : ℝ) < 1 := by
    have hlt : (4090 / 1533 : ℝ) < Real.exp 1 :=
      lt_trans (by norm_num) Real.exp_one_gt_d9
    calc Real.log (4090 / 1533 : ℝ) < Real.log (Real.exp 1) :=
          Real.log_lt_log (by norm_num) hlt
      _ = 1 := Real.log_exp 1
  have hL1pos : (0 : ℝ) < Real.log 2 := by linarith
  have hL2pos : (0 : ℝ) < Real.log (4090 / 1533 : ℝ) := by linarith
  have hrw : (10000 - Real.log 2) / Real.log 2 = 10000 / Real.log 2 - 1 := by
    rw [sub_div, div_self hL1pos.ne']
  have key : 10000 / Real.log (4090 / 1533 : ℝ) < 10000 / Real.log 2 - 1 := by
    rw [← hrw, div_lt_div_iff₀ hL2pos hL1pos]
    nlinarith
  linarith

/-! ### Claim theorems -/

/-- Claim C4 (amended): for a model with positive `k`, `rs`, `vs`,
`temperatureFromAdc` fails exactly when `voltage >= vs`, `resistance <= 0`,
or additionally `log(resistance/k) = 0` (the `resistance = k` case, a
division by zero the original claim misses); for every other code it
returns `beta / log(resistance/k) - 273.15`. -/
theorem claim4_temp_characterization (th : Thermistor)
    (hk : 0 < th.k) (hrs : 0 < th.rs) (hvs : 0 < th.vs) (adc : ℤ) :
    ((th.vs ≤ (adc : ℝ) * th.vadc / 1024 ∨
        th.rs * ((adc : ℝ) * th.vadc / 1024) /
          (th.vs - (adc : ℝ) * th.vadc / 1024) ≤ 0 ∨
        Real.log (th.rs * ((adc : ℝ) * th.vadc / 1024) /
          (th.vs - (adc : ℝ) * th.vadc / 1024) / th.k) = 0) →
      ∃ e, th.temp adc = .error e) ∧
    ((adc : ℝ) * th.vadc / 1024 < th.vs →
      0 < th.rs * ((adc : ℝ) * th.vadc / 1024) /
        (th.vs - (adc : ℝ) * th.vadc / 1024) →
      Real.log (th.rs * ((adc : ℝ) * th.vadc / 1024) /
        (th.vs - (adc : ℝ) * th.vadc / 1024) / th.k) ≠ 0 →
      th.temp adc = .ok (th.beta / Real.log (th.rs * ((adc : ℝ) * th.vadc / 1024) /
        (th.vs - (adc : ℝ) * th.vadc / 1024) / th.k) - 273.15)) := by
  set v : ℝ := (adc : ℝ) * th.vadc / 1024 with hv
  set r : ℝ := th.rs * v / (th.vs - v) with hr
  constructor
  · intro hdis
    by_cases hveq : th.vs - v = 0
    · exact ⟨_, temp_eq_err_sat th adc v hv.symm hveq⟩
    · by_cases hnp : r / th.k ≤ 0
      · exact ⟨_, temp_eq_err_nonpos th adc v r hv.symm hveq hr.symm hk.ne' hnp⟩
      · push_neg at hnp
        rcases hdis with h | h | h
        · exfalso
          have hlt : th.vs < v := lt_of_le_of_ne h fun he => hveq (by rw [he, sub_self])
          have hvpos : 0 < v := lt_trans hvs hlt
          have hrneg : r < 0 := by
            rw [hr]
            exact div_neg_of_pos_of_neg (mul_pos hrs hvpos) (by linarith)
          have : r / th.k < 0 := div_neg_of_neg_of_pos hrneg hk
          linarith
        · exfalso
          have : r / th.k ≤ 0 := div_nonpos_iff.mpr (Or.inr ⟨h, hk.le⟩)
          linarith
        · exact ⟨_, temp_eq_err_logzero th adc v r hv.symm hveq hr.symm hk.ne' hnp h⟩
  · intro h1 h2 h3
    have hsub : th.vs - v ≠ 0 := (sub_pos.mpr h1).ne'
    exact temp_eq_ok th adc v r hv.symm hsub hr.symm hk.ne' (div_pos h2 hk) h3

/-- Claim C7 (amended): with `beta > 0` and positive `k`, `rs`, `vs`,
`vadc`, the temperature is strictly decreasing in the ADC code on the
sub-range where the thermistor resistance exceeds `k` and the voltage
stays below `vs`; it is not monotone over the whole valid range (see the
counterexample crossing `resistance = k`). -/
theorem claim7_monotone_decreasing (th : Thermistor) (hk : 0 < th.k)
    (hrs : 0 < th.rs) (hvs : 0 < th.vs) (hbeta : 0 < th.beta)
    (hvadc : 0 < th.vadc) (a b : ℤ) (ha : 0 < a) (hab : a < b)
    (hb : (b : ℝ) * th.vadc / 1024 < th.vs)
    (hka : th.k < th.rs * ((a : ℝ) * th.vadc / 1024) /
      (th.vs - (a : ℝ) * th.vadc / 1024)) :
    ∃ ta tb, th.temp a = .ok ta ∧ th.temp b = .ok tb ∧ tb < ta := by
  set va : ℝ := (a : ℝ) * th.vadc / 1024 with hva
  set vb : ℝ := (b : ℝ) * th.vadc / 1024 with hvb
  have hcast : (a : ℝ) < (b : ℝ) := by exact_mod_cast hab
  have hapos : (0 : ℝ) < (a : ℝ) := by exact_mod_cast ha
  have hvapos : 0 < va := by rw [hva]; positivity
  have hvab : va < vb := by
    rw [hva, hvb]
    gcongr
  have hva5 : va < th.vs := lt_trans hvab hb
  have hsa : (0 : ℝ) < th.vs - va := sub_pos.mpr hva5
  have hsb : (0 : ℝ) < th.vs - vb := sub_pos.mpr hb
  set ra : ℝ := th.rs * va / (th.vs - va) with hra
  set rb : ℝ := th.rs * vb / (th.vs - vb) with hrb
  have hrarb : ra < rb := by
    rw [hra, hrb, div_lt_div_iff₀ hsa hsb]
    nlinarith [mul_pos hrs hvs]
  have h1a : 1 < ra / th.k := (one_lt_div hk).mpr hka
  have h1b : 1 < rb / th.k := (one_lt_div hk).mpr (lt_trans hka hrarb)
  have hla : 0 < Real.log (ra / th.k) := Real.log_pos h1a
  have hlb : 0 < Real.log (rb / th.k) := Real.log_pos h1b
  have hlab : Real.log (ra / th.k) < Real.log (rb / th.k) := by
    apply Real.log_lt_log (lt_trans one_pos h1a)
    gcongr
  have hta := temp_eq_ok th a va ra hva.symm hsa.ne' hra.symm hk.ne'
    (lt_trans one_pos h1a) hla.ne'
  have htb := temp_eq_ok th b vb rb hvb.symm hsb.ne' hrb.symm hk.ne'
    (lt_trans one_pos h1b) hlb.ne'
  refine ⟨_, _, hta, htb, ?_⟩
  have := div_lt_div_of_pos_left hbeta hla hlab
  linarith

/-- Claim C8 (amended): the ADC-code round-trip is exact: for any model
produced by construction with nonzero `beta` and `rs`, and any code on
which `temperatureFromAdc` succeeds, `adcFromTemperature` maps the
resulting temperature back to exactly that code.  (The temperature-side
round-trip is *not* bounded by a few tenths of a degree; see the
counterexample.) -/
theorem claim8_adc_roundtrip (r0 t0c beta : ℝ) (r1 : Option ℝ) (r2 : ℝ)
    (th : Thermistor) (c : ℤ) (t : ℝ)
    (hinit : Thermistor.init r0 t0c beta r1 r2 = .ok th)
    (hbeta : th.beta ≠ 0) (hrs : th.rs ≠ 0) (htemp : th.temp c = .ok t) :
    th.setting t = .ok c := by
  obtain ⟨h_r0, h_t0, h_beta, h_vadc, h_k, h_t0ne, h_vsne⟩ := init_ok_fields hinit
  obtain ⟨hsub, hkne, hpos, hlogne, hval⟩ := temp_ok_inv htemp
  set v : ℝ := (c : ℝ) * th.vadc / 1024 with hv
  set r : ℝ := th.rs * v / (th.vs - v) with hr
  set L : ℝ := Real.log (r / th.k) with hL
  have hk_eq : th.k = th.r0 * Real.exp (-th.beta / th.t0) := by
    rw [h_k, h_r0, h_beta, h_t0]
  have hr0ne : th.r0 ≠ 0 := by
    intro h0
    exact hkne (by rw [hk_eq, h0, zero_mul])
  have hT : t + 273.15 = th.beta / L := by rw [hval]; ring
  have hTne : t + 273.15 ≠ 0 := by
    rw [hT]
    exact div_ne_zero hbeta hlogne
  have ht0ne : th.t0 ≠ 0 := by rw [h_t0]; exact h_t0ne
  have hkE : th.k * Real.exp (th.beta / th.t0) = th.r0 := by
    rw [hk_eq, neg_div, Real.exp_neg]
    field_simp
  have hrs_eq : th.r0 * Real.exp (th.beta * (1 / (t + 273.15) - 1 / th.t0)) = r := by
    rw [hT, one_div_div]
    have h1 : th.beta * (L / th.beta - 1 / th.t0) = L - th.beta / th.t0 := by
      field_simp
      ring
    rw [h1, Real.exp_sub, hL, Real.exp_log hpos]
    rw [div_div, hkE, mul_comm, div_mul_cancel₀ _ hr0ne]
  have hd : th.rs + r = th.rs * th.vs / (th.vs - v) := by
    rw [hr]
    field_simp
    ring
  have hrsr : th.rs + r ≠ 0 := by
    rw [hd]
    exact div_ne_zero (mul_ne_zero hrs h_vsne) hsub
  have hvadcne : th.vadc ≠ 0 := by rw [h_vadc]; norm_num
  rw [setting_eq_ok th t r hTne ht0ne hrs_eq hrsr hvadcne]
  have hveq : th.vs * r / (th.rs + r) = v := by
    have hne : th.rs * th.vs / (th.vs - v) ≠ 0 :=
      div_ne_zero (mul_ne_zero hrs h_vsne) hsub
    rw [hd, hr, div_eq_iff hne]
    field_simp
    ring
  have hfinal : th.vs * r / (th.rs + r) / th.vadc * 1024 = (c : ℝ) := by
    rw [hveq, hv]
    field_simp
    ring
  rw [hfinal, pyRound_intCast]

/-- Claim C1 (amended): with `maxAdc = 1023` and `numPoints = 20` the
increment is `floor(1023/19) = 53` and the codes are `1, 54, 107, ...,
1008`, each strictly less than 1023 — but that makes exactly 20 table
rows, not 19. -/
theorem claim1_table_size :
    increment 1023 20 = 53 ∧
    adcs 1023 20 = [1, 54, 107, 160, 213, 266, 319, 372, 425, 478, 531, 584,
      637, 690, 743, 796, 849, 902, 955, 1008] ∧
    ((adcs 1023 20).all fun a => decide (a < 1023)) = true ∧
    (adcs 1023 20).length = 20 ∧
    (∃ tbl, generate thM 1023 20 = .ok tbl ∧ tbl.map Prod.fst = adcs 1023 20 ∧
      tbl.length = 20) := by
  refine ⟨by decide, by decide, by decide, by decide, ?_⟩
  obtain ⟨tbl, h1, h2⟩ := thM_generate_ok
  refine ⟨tbl, h1, h2, ?_⟩
  have h3 := congrArg List.length h2
  rw [List.length_map] at h3
  rw [h3]
  decide

/-- Claim C1 counterexample: the sampled code list for `maxAdc = 1023`,
`numPoints = 20` does not have 19 elements (it has 20). -/
theorem claim1_cex : ¬ (adcs 1023 20).length = 19 := by decide

/-- Claim C2 (amended): every row of a successfully generated table pairs
the raw ADC code with the *truncation toward zero* (`int()`) of
`temperatureFromAdc(code)`, not with its nearest-integer rounding. -/
theorem claim2_rows_truncate (th : Thermistor) (maxAdc n : ℤ)
    (tbl : List (ℤ × ℤ)) (h : generate th maxAdc n = .ok tbl)
    (p : ℤ × ℤ) (hp : p ∈ tbl) :
    ∃ t, th.temp p.1 = .ok t ∧ p.2 = intTrunc t := by
  obtain ⟨t, h1, h2, -⟩ := tableRows_ok_mem (generate_ok_inv h) p hp
  exact ⟨t, h1, h2⟩

/-- Claim C2 counterexample: for the model built from
`r0=4700, t0=0.9, beta=274.05, r2=4700`, `temp 512 = 0.9`; Python 2
`round` would give `1`, yet the emitted table row for code 512 carries
`0` (truncation). -/
theorem claim2_cex :
    Thermistor.init 4700 0.9 274.05 none 4700 = .ok thC2 ∧
    thC2.temp 512 = .ok (9 / 10) ∧ pyRound (9 / 10) = 1 ∧
    generate thC2 1022 3 =
      .ok [(1, intTrunc (274.05 / (1 - Real.log 1023) - 273.15)), (512, 0)] :=
  ⟨init_thC2, thC2_temp_512, pyRound_nine_tenths, generate_thC2⟩

/-- Claim C2 witness: the generic truncation theorem applied to the
concrete generated table of `thC2`. -/
theorem claim2_witness :
    generate thC2 1022 3 =
      .ok [(1, intTrunc (274.05 / (1 - Real.log 1023) - 273.15)), (512, 0)] ∧
    ((512 : ℤ), (0 : ℤ)) ∈
      [((1 : ℤ), intTrunc (274.05 / (1 - Real.log 1023) - 273.15)),
       ((512 : ℤ), (0 : ℤ))] ∧
    (∃ t, thC2.temp 512 = .ok t ∧ (0 : ℤ) = intTrunc t) := by
  refine ⟨generate_thC2, by simp, ?_⟩
  exact claim2_rows_truncate thC2 1022 3 _ generate_thC2 (512, 0) (by simp)

/-- Claim C3 (amended): construction validates nothing.  It succeeds
exactly when no division by zero occurs, i.e. when `t0 + 273.15 ≠ 0` and,
should `r1 > 0`, `r1 + r2 ≠ 0`; in particular `r0 = 0` (like any
non-positive `r0`, `beta` or `r2`) yields a model, with `k = 0`. -/
theorem claim3_no_validation :
    (∀ (r0 t0c beta : ℝ) (r1 : Option ℝ) (r2 : ℝ),
      (∃ th, Thermistor.init r0 t0c beta r1 r2 = .ok th) ↔
        (t0c + 273.15 ≠ 0 ∧ (0 < r1.getD 0 → r1.getD 0 + r2 ≠ 0))) ∧
    (∀ beta r2 : ℝ, Thermistor.init 0 25 beta none r2 =
      .ok ⟨0, 298.15, beta, 5, 5, 0, 5, r2⟩) := by
  constructor
  · intro r0 t0c beta r1 r2
    constructor
    · rintro ⟨th, hth⟩
      simp only [Thermistor.init] at hth
      split at hth
      · exact absurd hth (by simp)
      · rename_i ht0
        refine ⟨ht0, ?_⟩
        intro hpos
        split at hth
        · split at hth
          · exact absurd hth (by simp)
          · rename_i hden
            exact hden
        · rename_i hneg
          exact absurd hpos hneg
    · rintro ⟨ht0, hr1⟩
      simp only [Thermistor.init]
      rw [if_neg ht0]
      by_cases hp : 0 < r1.getD 0
      · rw [if_pos hp, if_neg (hr1 hp)]
        exact ⟨_, rfl⟩
      · rw [if_neg hp]
        exact ⟨_, rfl⟩
  · intro beta r2
    rw [init_none_eq _ _ _ _ (by norm_num)]
    have h1 : (25 : ℝ) + 273.15 = 298.15 := by norm_num
    rw [h1, zero_mul]

/-- Claim C3 counterexample: construction with `r0 = 0` does not fail —
it returns a model whose derived constant `k` is `0`. -/
theorem claim3_cex :
    Thermistor.init 0 25 4092 none 4700 = .ok thZero ∧ thZero.k = 0 :=
  ⟨init_thZero, rfl⟩

/-- Claim C3 witness: the characterisation applied at concrete inputs. -/
theorem claim3_witness :
    (∃ th, Thermistor.init 100000 25 4092 none 4700 = .ok th) ∧
    Thermistor.init 0 25 1 none 4700 = .ok ⟨0, 298.15, 1, 5, 5, 0, 5, 4700⟩ := by
  refine ⟨?_, claim3_no_validation.2 1 4700⟩
  refine (claim3_no_validation.1 100000 25 4092 none 4700).mpr ⟨by norm_num, ?_⟩
  intro h
  rw [Option.getD_none] at h
  exact absurd h (lt_irrefl 0)

/-- Claim C4 counterexample: for the constructed model with
`r0=1, t0=1-273.15, beta=1, r2=exp(-1)`, code 512 has voltage `2.5 < vs`,
positive resistance and positive `resistance/k`, yet `temp 512` fails
(with a division by zero, since `log(resistance/k) = log 1 = 0`). -/
theorem claim4_cex :
    Thermistor.init 1 (1 - 273.15) 1 none (Real.exp (-1)) = .ok thUnit ∧
    thUnit.temp 512 = .error .zeroDivisionError ∧
    ((512 : ℤ) : ℝ) * thUnit.vadc / 1024 < thUnit.vs ∧
    0 < thUnit.rs * (((512 : ℤ) : ℝ) * thUnit.vadc / 1024) /
      (thUnit.vs - ((512 : ℤ) : ℝ) * thUnit.vadc / 1024) ∧
    0 < thUnit.rs * (((512 : ℤ) : ℝ) * thUnit.vadc / 1024) /
      (thUnit.vs - ((512 : ℤ) : ℝ) * thUnit.vadc / 1024) / thUnit.k := by
  have hratio := thUnit_temp_ratio 512 (by norm_num)
  have hcast : ((512 : ℤ) : ℝ) / (1024 - ((512 : ℤ) : ℝ)) = 1 := by norm_num
  have hXr : Real.exp (-1) * (((512 : ℤ) : ℝ) * 5 / 1024) /
      (5 - ((512 : ℤ) : ℝ) * 5 / 1024) = Real.exp (-1) :=
    (div_eq_one_iff_eq (Real.exp_ne_zero (-1))).mp (hratio.trans hcast)
  refine ⟨init_thUnit, thUnit_temp_512, ?_, ?_, ?_⟩
  · show ((512 : ℤ) : ℝ) * 5 / 1024 < 5
    norm_num
  · show 0 < Real.exp (-1) * (((512 : ℤ) : ℝ) * 5 / 1024) /
      (5 - ((512 : ℤ) : ℝ) * 5 / 1024)
    rw [hXr]
    exact Real.exp_pos _
  · show 0 < Real.exp (-1) * (((512 : ℤ) : ℝ) * 5 / 1024) /
      (5 - ((512 : ℤ) : ℝ) * 5 / 1024) / Real.exp (-1)
    rw [hratio, hcast]
    norm_num

/-- Claim C4 witness: the characterisation applied to the concrete
scenario model at code 512, which succeeds. -/
theorem claim4_witness :
    0 < thM.k ∧ 0 < thM.rs ∧ 0 < thM.vs ∧
    thM.temp 512 = .ok (thM.beta / Real.log (thM.rs *
      (((512 : ℤ) : ℝ) * thM.vadc / 1024) /
      (thM.vs - ((512 : ℤ) : ℝ) * thM.vadc / 1024) / thM.k) - 273.15) := by
  have hk := thM_k_pos
  have hrs : (0 : ℝ) < thM.rs := by
    show (0 : ℝ) < 4700
    norm_num
  have hvs : (0 : ℝ) < thM.vs := by
    show (0 : ℝ) < 5
    norm_num
  have hr : thM.rs * (((512 : ℤ) : ℝ) * thM.vadc / 1024) /
      (thM.vs - ((512 : ℤ) : ℝ) * thM.vadc / 1024) = 4700 := by
    show (4700 : ℝ) * (((512 : ℤ) : ℝ) * 5 / 1024) /
      (5 - ((512 : ℤ) : ℝ) * 5 / 1024) = 4700
    norm_num
  refine ⟨hk, hrs, hvs, ?_⟩
  apply (claim4_temp_characterization thM hk hrs hvs 512).2
  · show ((512 : ℤ) : ℝ) * 5 / 1024 < 5
    norm_num
  · rw [hr]
    norm_num
  · rw [hr]
    exact (Real.log_pos ((one_lt_div hk).mpr
      (lt_trans thM_k_lt_4 (by norm_num)))).ne'

/-- Claim C5 (amended): `generate` fails before emitting any row only for
`numPoints = 1` (division by zero computing the increment) and for a zero
increment (zero `range` step); `numPoints = 0` — although below 2 — does
not fail: the increment is negative and the result is an empty table. -/
theorem claim5_generate_failures :
    (∀ (th : Thermistor) (maxAdc : ℤ),
      generate th maxAdc 1 = .error .zeroDivisionError) ∧
    (∀ (th : Thermistor) (maxAdc n : ℤ), n - 1 ≠ 0 → increment maxAdc n = 0 →
      generate th maxAdc n = .error .rangeStepError) ∧
    (∀ th : Thermistor, generate th 1023 0 = .ok []) := by
  refine ⟨?_, ?_, ?_⟩
  · intro th maxAdc
    simp only [generate]
    rw [if_pos (by norm_num)]
  · intro th maxAdc n h1 h2
    simp only [generate]
    rw [if_neg h1, if_pos h2]
  · intro th
    rw [generate_eq (by decide) (by decide)]
    have h : adcs 1023 0 = [] := by decide
    rw [h]
    rfl

/-- Claim C5 counterexample: `numPoints = 0` is below 2, yet generation
does not fail with any error — it returns an empty table. -/
theorem claim5_cex : generate thM 1023 0 = .ok [] := generate_thM_empty

/-- Claim C5 witness: the failure characterisation at concrete inputs. -/
theorem claim5_witness :
    generate thM 1023 1 = .error .zeroDivisionError ∧
    (2000 : ℤ) - 1 ≠ 0 ∧ increment 1023 2000 = 0 ∧
    generate thM 1023 2000 = .error .rangeStepError ∧
    generate thC2 1023 0 = .ok [] :=
  ⟨claim5_generate_failures.1 thM 1023, by decide, by decide,
    claim5_generate_failures.2.1 thM 1023 2000 (by decide) (by decide),
    claim5_generate_failures.2.2 thC2⟩

/-- Claim C6: the concrete scenario `r0=100000, t0=25, beta=4092,
r1 absent, r2=4700` constructs with `k = 100000*exp(-4092/298.15)`,
`vs = 5`, `rs = 4700`, and `temp 512` equals the formula value at
`voltage = 512*5/1024 = 2.5`. -/
theorem claim6_concrete_scenario :
    Thermistor.init 100000 25 4092 none 4700 = .ok thM ∧
    thM.k = 100000 * Real.exp (-4092 / 298.15) ∧ thM.vs = 5 ∧ thM.rs = 4700 ∧
    ((512 : ℤ) : ℝ) * thM.vadc / 1024 = 2.5 ∧
    thM.temp 512 = .ok (4092 / Real.log ((4700 * 2.5 / (5 - 2.5)) /
      (100000 * Real.exp (-4092 / 298.15))) - 273.15) := by
  refine ⟨init_thM, rfl, rfl, rfl, ?_, ?_⟩
  · show ((512 : ℤ) : ℝ) * 5 / 1024 = 2.5
    norm_num
  · have h : (4700 * 2.5 / (5 - 2.5) : ℝ) = 4700 := by norm_num
    rw [h]
    exact thM_temp_512

/-- Claim C7 counterexample: for the constructed model with
`r0=1, t0=1-273.15, beta=1, r2=exp(-1)`, the codes `510 < 511 < 513` are
all valid, yet the temperature first decreases and then increases —
`temperatureFromAdc` is not monotone over the valid ADC range. -/
theorem claim7_cex :
    Thermistor.init 1 (1 - 273.15) 1 none (Real.exp (-1)) = .ok thUnit ∧
    thUnit.temp 510 = .ok (1 / Real.log (510 / 514) - 273.15) ∧
    thUnit.temp 511 = .ok (1 / Real.log (511 / 513) - 273.15) ∧
    thUnit.temp 513 = .ok (1 / Real.log (513 / 511) - 273.15) ∧
    1 / Real.log (511 / 513) - 273.15 < 1 / Real.log (510 / 514) - 273.15 ∧
    1 / Real.log (511 / 513) - 273.15 < 1 / Real.log (513 / 511) - 273.15 := by
  refine ⟨init_thUnit, thUnit_temp_510, thUnit_temp_511, thUnit_temp_513, ?_, ?_⟩
  · have ha : Real.log (510 / 514 : ℝ) < 0 :=
      Real.log_neg (by norm_num) (by norm_num)
    have hb : Real.log (511 / 513 : ℝ) < 0 :=
      Real.log_neg (by norm_num) (by norm_num)
    have hab : Real.log (510 / 514 : ℝ) < Real.log (511 / 513 : ℝ) :=
      Real.log_lt_log (by norm_num) (by norm_num)
    have := one_div_lt_one_div_of_neg_of_lt hb hab
    linarith
  · have hb : Real.log (511 / 513 : ℝ) < 0 :=
      Real.log_neg (by norm_num) (by norm_num)
    have hc : (0 : ℝ) < Real.log (513 / 511 : ℝ) := Real.log_pos (by norm_num)
    have h1 : 1 / Real.log (511 / 513 : ℝ) < 0 := one_div_neg.mpr hb
    have h2 : (0 : ℝ) < 1 / Real.log (513 / 511 : ℝ) := one_div_pos.mpr hc
    linarith

/-- Claim C7 witness: strict decrease on the concrete scenario model
between codes 512 and 600. -/
theorem claim7_witness :
    0 < thM.k ∧ 0 < thM.rs ∧ 0 < thM.vs ∧ 0 < thM.beta ∧ 0 < thM.vadc ∧
    (0 : ℤ) < 512 ∧ (512 : ℤ) < 600 ∧
    ((600 : ℤ) : ℝ) * thM.vadc / 1024 < thM.vs ∧
    thM.k < thM.rs * (((512 : ℤ) : ℝ) * thM.vadc / 1024) /
      (thM.vs - ((512 : ℤ) : ℝ) * thM.vadc / 1024) ∧
    (∃ ta tb, thM.temp 512 = .ok ta ∧ thM.temp 600 = .ok tb ∧ tb < ta) := by
  have hk := thM_k_pos
  have hrs : (0 : ℝ) < thM.rs := by
    show (0 : ℝ) < 4700
    norm_num
  have hvs : (0 : ℝ) < thM.vs := by
    show (0 : ℝ) < 5
    norm_num
  have hbeta : (0 : ℝ) < thM.beta := by
    show (0 : ℝ) < 4092
    norm_num
  have hvadc : (0 : ℝ) < thM.vadc := by
    show (0 : ℝ) < 5
    norm_num
  have hb : ((600 : ℤ) : ℝ) * thM.vadc / 1024 < thM.vs := by
    show ((600 : ℤ) : ℝ) * 5 / 1024 < 5
    norm_num
  have hka : thM.k < thM.rs * (((512 : ℤ) : ℝ) * thM.vadc / 1024) /
      (thM.vs - ((512 : ℤ) : ℝ) * thM.vadc / 1024) := by
    have hr : thM.rs * (((512 : ℤ) : ℝ) * thM.vadc / 1024) /
        (thM.vs - ((512 : ℤ) : ℝ) * thM.vadc / 1024) = 4700 := by
      show (4700 : ℝ) * (((512 : ℤ) : ℝ) * 5 / 1024) /
        (5 - ((512 : ℤ) : ℝ) * 5 / 1024) = 4700
      norm_num
    rw [hr]
    exact lt_trans thM_k_lt_4 (by norm_num)
  exact ⟨hk, hrs, hvs, hbeta, hvadc, by norm_num, by norm_num, hb, hka,
    claim7_monotone_decreasing thM hk hrs hvs hbeta hvadc 512 600 (by norm_num)
      (by norm_num) hb hka⟩

/-- Claim C8 counterexample: for the constructed steep model, the
temperature `t = 10000/log 2 - 273.15` maps to ADC code 2, but
`temperatureFromAdc 2` differs from `t` by more than one whole degree
(in fact by thousands), far beyond "a few tenths". -/
theorem claim8_cex :
    Thermistor.init (3 * Real.exp 1) (10000 - 273.15) 10000 none 4090 =
      .ok thSteep ∧
    thSteep.setting (10000 / Real.log 2 - 273.15) = .ok 2 ∧
    thSteep.temp 2 = .ok (10000 / Real.log (4090 / 1533) - 273.15) ∧
    10000 / Real.log (4090 / 1533) - 273.15 + 1 < 10000 / Real.log 2 - 273.15 :=
  ⟨init_thSteep, thSteep_setting, thSteep_temp_2, thSteep_deviation⟩

/-- Claim C8 witness: the exact ADC round-trip on the concrete scenario
model at code 512. -/
theorem claim8_witness :
    Thermistor.init 100000 25 4092 none 4700 = .ok thM ∧ thM.beta ≠ 0 ∧
    thM.rs ≠ 0 ∧
    thM.temp 512 = .ok (4092 / Real.log (4700 /
      (100000 * Real.exp (-4092 / 298.15))) - 273.15) ∧
    thM.setting (4092 / Real.log (4700 /
      (100000 * Real.exp (-4092 / 298.15))) - 273.15) = .ok 512 := by
  have hbeta : thM.beta ≠ 0 := by
    show (4092 : ℝ) ≠ 0
    norm_num
  have hrs : thM.rs ≠ 0 := by
    show (4700 : ℝ) ≠ 0
    norm_num
  exact ⟨init_thM, hbeta, hrs, thM_temp_512,
    claim8_adc_roundtrip 100000 25 4092 none 4700 thM 512 _ init_thM hbeta hrs
      thM_temp_512⟩

/-- Claim C9: for a constructed model with `r0 > 0` the constant `k` is
positive and `temperatureFromAdc 0` always fails (resistance 0, logarithm
domain error); and ADC code 0 never appears in any successfully emitted
table, for any model. -/
theorem claim9_adc_zero (r0 t0c beta r2 : ℝ) (r1 : Option ℝ) (th : Thermistor)
    (hinit : Thermistor.init r0 t0c beta r1 r2 = .ok th) (hr0 : 0 < r0)
    (th2 : Thermistor) (maxAdc n : ℤ) (tbl : List (ℤ × ℤ))
    (hg : generate th2 maxAdc n = .ok tbl) :
    0 < th.k ∧ th.temp 0 = .error .mathDomainError ∧
      (0 : ℤ) ∉ tbl.map Prod.fst := by
  obtain ⟨h_r0, h_t0, h_beta, h_vadc, h_k, h_t0ne, h_vsne⟩ := init_ok_fields hinit
  have hk : 0 < th.k := by
    rw [h_k]
    exact mul_pos hr0 (Real.exp_pos _)
  refine ⟨hk, temp_zero_eq h_vsne hk.ne', ?_⟩
  intro hmem
  obtain ⟨p, hp, hp0⟩ := List.mem_map.mp hmem
  obtain ⟨t, ht, -, -⟩ := tableRows_ok_mem (generate_ok_inv hg) p hp
  rw [hp0] at ht
  exact temp_zero_not_ok th2 t ht

/-- Claim C9 witness: applied to the concrete scenario model and the
concrete generated table of `thC2`. -/
theorem claim9_witness :
    Thermistor.init 100000 25 4092 none 4700 = .ok thM ∧ (0 : ℝ) < 100000 ∧
    generate thC2 1022 3 =
      .ok [(1, intTrunc (274.05 / (1 - Real.log 1023) - 273.15)), (512, 0)] ∧
    (0 < thM.k ∧ thM.temp 0 = .error .mathDomainError ∧
      (0 : ℤ) ∉ ([(1, intTrunc (274.05 / (1 - Real.log 1023) - 273.15)),
        ((512 : ℤ), (0 : ℤ))] : List (ℤ × ℤ)).map Prod.fst) := by
  refine ⟨init_thM, by norm_num, generate_thC2, ?_⟩
  exact claim9_adc_zero 100000 25 4092 4700 none thM init_thM (by norm_num)
    thC2 1022 3 _ generate_thC2

/-- Claim C10: `adcFromTemperature` fails with a division by zero exactly
at `tempCelsius = -273.15`; for every `t > -273.15` on a model built with
positive `r0`, `beta`, `r2` (and `r1` absent) both denominators are
strictly positive and the function returns a value. -/
theorem claim10_setting_domain (r0 t0c beta r2 : ℝ) (th : Thermistor)
    (hinit : Thermistor.init r0 t0c beta none r2 = .ok th)
    (hr0 : 0 < r0) (hbeta : 0 < beta) (hr2 : 0 < r2) (t : ℝ)
    (ht : -273.15 < t) :
    th.setting (-273.15) = .error .zeroDivisionError ∧
      0 < t + 273.15 ∧
      0 < th.rs + th.r0 * Real.exp (th.beta * (1 / (t + 273.15) - 1 / th.t0)) ∧
      th.setting t = .ok (pyRound (th.vs *
        (th.r0 * Real.exp (th.beta * (1 / (t + 273.15) - 1 / th.t0))) /
        (th.rs + th.r0 * Real.exp (th.beta * (1 / (t + 273.15) - 1 / th.t0))) /
        th.vadc * 1024)) := by
  obtain ⟨h_r0, h_t0, h_beta, h_vadc, h_k, h_t0ne, h_vsne⟩ := init_ok_fields hinit
  obtain ⟨h_rs, h_vs⟩ := init_none_rs hinit
  have hT : (0 : ℝ) < t + 273.15 := by linarith
  have hrpos : 0 < th.r0 * Real.exp (th.beta * (1 / (t + 273.15) - 1 / th.t0)) := by
    rw [h_r0]
    exact mul_pos hr0 (Real.exp_pos _)
  have hsum : 0 < th.rs +
      th.r0 * Real.exp (th.beta * (1 / (t + 273.15) - 1 / th.t0)) := by
    rw [h_rs]
    exact add_pos hr2 hrpos
  refine ⟨setting_absZero th, hT, hsum, ?_⟩
  exact setting_eq_ok th t _ hT.ne' (by rw [h_t0]; exact h_t0ne) rfl hsum.ne'
    (by rw [h_vadc]; norm_num)

/-- Claim C10 witness: applied to the concrete scenario model at
`t = 25`. -/
theorem claim10_witness :
    Thermistor.init 100000 25 4092 none 4700 = .ok thM ∧
    (-273.15 : ℝ) < 25 ∧
    (thM.setting (-273.15) = .error .zeroDivisionError ∧
      (0 : ℝ) < 25 + 273.15 ∧
      0 < thM.rs + thM.r0 * Real.exp (thM.beta * (1 / (25 + 273.15) - 1 / thM.t0)) ∧
      thM.setting 25 = .ok (pyRound (thM.vs *
        (thM.r0 * Real.exp (thM.beta * (1 / (25 + 273.15) - 1 / thM.t0))) /
        (thM.rs + thM.r0 * Real.exp (thM.beta * (1 / (25 + 273.15) - 1 / thM.t0))) /
        thM.vadc * 1024))) := by
  refine ⟨init_thM, by norm_num, ?_⟩
  exact claim10_setting_domain 100000 25 4092 4700 thM init_thM (by norm_num)
    (by norm_num) (by norm_num) 25 (by norm_num)

end Marlin
